import Mathlib

/-!
Shallow embedding of the forward-oai gateway (`src/app.py`) and proofs about
its route resolution, credential rotation, header rewriting, body adaption
and response relay.

Python strings are modelled at the code-point level (`List Char` inside
`String`); Python dicts are modelled as association lists with unique-key
semantics (`mget` / `mset` / `mremove`); Python truthiness of optional
strings and dicts is made explicit (`pyTruthyStr`, `pyTruthyDict`).
-/

namespace ForwardOai

/-! ### Python string primitives (code-point level) -/

/-- Python truthiness of an optional string: `None` and `""` are falsy. -/
def pyTruthyStr : Option String → Bool
  | none => false
  | some s => !(s == "")

/-- Python `a or b` on optional strings (falsy `a` falls through to `b`). -/
def pyOrStr (a b : Option String) : Option String :=
  if pyTruthyStr a then a else b

/-- Python `s.split(sep)` for a single-character separator, on code points.
`splitChars c cs` always returns at least one (possibly empty) part. -/
def splitChars (sep : Char) : List Char → List (List Char)
  | [] => [[]]
  | c :: cs =>
    if c = sep then [] :: splitChars sep cs
    else
      match splitChars sep cs with
      | [] => [[c]]
      | h :: t => (c :: h) :: t

/-- Python `key.split(',')`. -/
def pySplitComma (s : String) : List String :=
  (splitChars ',' s.data).map (fun cs => String.mk cs)

/-- Python `s.endswith(t)` (code-point suffix test). -/
def pyEndsWith (s t : String) : Bool :=
  t.data.isSuffixOf s.data

/-- Python `s[:-n]`: drop the last `n` code points. -/
def pyDropRightChars (s : String) (n : Nat) : String :=
  String.mk (s.data.take (s.data.length - n))

/-- Python `s.startswith(t)` (code-point prefix test). -/
def pyStartsWith (s t : String) : Bool :=
  t.data.isPrefixOf s.data

/-- Python `s.lower()` (code-point mapping). -/
def pyLower (s : String) : String :=
  String.mk (s.data.map Char.toLower)

/-- Python `s.strip()`: drop leading and trailing whitespace code points. -/
def pyStrip (s : String) : String :=
  String.mk (((s.data.dropWhile Char.isWhitespace).reverse.dropWhile
    Char.isWhitespace).reverse)

/-! ### Python dicts as association lists -/

/-- Python `d.get(k)` (first binding of `k`, if any). -/
def mget {α : Type} (m : List (String × α)) (k : String) : Option α :=
  (m.find? (fun p => p.1 == k)).map (fun p => p.2)

/-- Remove every binding of `k` (Python `d.pop(k, None)`). -/
def mremove {α : Type} (m : List (String × α)) (k : String) : List (String × α) :=
  m.filter (fun p => !(p.1 == k))

/-- Python `d[k] = v`. -/
def mset {α : Type} (m : List (String × α)) (k : String) (v : α) : List (String × α) :=
  mremove m k ++ [(k, v)]

/-! ### JSON values -/

/-- JSON values as produced by `json.load` / `req.json()`
(numbers modelled as integers; nothing here depends on fractional values). -/
inductive Json where
  | null
  | bool (b : Bool)
  | num (n : Int)
  | str (s : String)
  | arr (xs : List Json)
  | obj (fields : List (String × Json))

/-- Python truthiness of a JSON value. -/
def jtruthy : Json → Bool
  | Json.null => false
  | Json.bool b => b
  | Json.num n => !(n == 0)
  | Json.str s => !(s == "")
  | Json.arr xs => !xs.isEmpty
  | Json.obj fs => !fs.isEmpty

/-! ### Configuration store (from `config.json`, read by `app.py` lines 59-60,
115-140, 151) -/

/-- One per-(tenant, model) entry of `config.json`.  The `url` field appears
in the configuration schema but is never read by the code. -/
structure RouteConfig where
  url : Option String := none
  chat_url : Option String := none
  domain : Option String := none
  key : Option String := none
  redirect : Option (List (String × String)) := none

/-- A tenant's configuration: model identifier (or `"*"`) to entry. -/
def TenantConfig : Type := List (String × RouteConfig)

/-- The whole `config.json`: tenant token (or `"*"`) to tenant config. -/
def AppConfig : Type := List (String × TenantConfig)

/-- `config.get(model, {})` — missing models resolve to the empty entry. -/
def tget (config : TenantConfig) (model : String) : RouteConfig :=
  (mget config model).getD {}

/-- `app.py` line 60: `config = app_config.get(token, app_config.get("*", {}))`.
A `none` token (absent/malformed Authorization header) is not a key. -/
def configFor (appCfg : AppConfig) (token : Option String) : TenantConfig :=
  match token with
  | some t =>
    match mget appCfg t with
    | some cfg => cfg
    | none => (mget appCfg "*").getD []
  | none => (mget appCfg "*").getD []

/-- The two-level field lookup used at lines 120, 123, 133, 137, 151:
`config.get(model, {}).get(f) or config.get("*", {}).get(f)`. -/
def resolveFieldIn (config : TenantConfig) (model : String)
    (f : RouteConfig → Option String) : Option String :=
  pyOrStr (f (tget config model)) (f (tget config "*"))

/-- Field resolution as the code composes it: tenant selection (line 60)
followed by the two-level model lookup. -/
def codeResolveField (appCfg : AppConfig) (token : Option String)
    (model : String) (f : RouteConfig → Option String) : Option String :=
  resolveFieldIn (configFor appCfg token) model f

/-- Modelled from the spec (§3): the four-step fallback chain
`(token, model) → (token, "*") → ("*", model) → ("*", "*")`, each field
resolved independently, first present value wins.  This is the claimed
behaviour, stated for comparison with `codeResolveField`. -/
def spec_fallback_resolve (appCfg : AppConfig) (token : Option String)
    (model : String) (f : RouteConfig → Option String) : Option String :=
  let layer : String → String → Option String := fun t m =>
    ((mget appCfg t).bind (fun tc => mget tc m)).bind f
  (match token with
   | some t => layer t model <|> layer t "*"
   | none => none) <|> layer "*" model <|> layer "*" "*"

/-! ### Route resolution (`prepare_chat_url`, `prepare_other_url`, lines 63-71) -/

/-- Error text of lines 126/136 (an f-string in the source). -/
def chatNoRouteMsg (model : String) : String :=
  "配置错误：模型 " ++ model ++ " 既没有 chat-url 也没有 domain 配置"

/-- Error text of line 68. -/
def noUrlMsg : String := "config.json中没有配置模型对应的URL"

/-- `prepare_chat_url` (lines 115-128). -/
def prepare_chat_url (model : String) (config : TenantConfig) :
    Except String String :=
  let url := resolveFieldIn config model (fun rc => rc.chat_url)
  if pyTruthyStr url then Except.ok (url.getD "")
  else
    match resolveFieldIn config model (fun rc => rc.domain) with
    | none => Except.error (chatNoRouteMsg model)
    | some d => Except.ok (d ++ "/v1/chat/completions")

/-- Python truthiness of an optional dict: `None` and `{}` are falsy. -/
def pyTruthyDict : Option (List (String × String)) → Bool
  | none => false
  | some l => !l.isEmpty

/-- Python `a or b` on optional dicts (line 137). -/
def pyOrDict (a b : Option (List (String × String))) :
    Option (List (String × String)) :=
  if pyTruthyDict a then a else b

/-- `prepare_other_url` (lines 130-140). -/
def prepare_other_url (model path : String) (config : TenantConfig) :
    Except String String :=
  match resolveFieldIn config model (fun rc => rc.domain) with
  | none => Except.error (chatNoRouteMsg model)
  | some d =>
    match pyOrDict ((tget config model).redirect) ((tget config "*").redirect) with
    | none => Except.ok (d ++ path)
    | some r =>
      match mget r path with
      | some v => if v == "" then Except.ok (d ++ path) else Except.ok (d ++ v)
      | none => Except.ok (d ++ path)

/-- The URL phase of `fetch` (lines 63-71): mode dispatch, the empty-URL
check of line 67, and the `{model_name}` substitution of lines 70-71. -/
def routeUrl (is_chat : Bool) (model path : String) (config : TenantConfig) :
    Except String String :=
  match (if is_chat then prepare_chat_url model config
         else prepare_other_url model path config) with
  | Except.error e => Except.error e
  | Except.ok url =>
    if url == "" then Except.error noUrlMsg
    else Except.ok (url.replace "{model_name}" model)

/-! ### Body adapter (`fetch`, lines 42-58) -/

/-- The typed payload `fetch` forwards downstream. -/
inductive Payload where
  | noBody
  | json (j : Json)
  | text (s : String)
  | form
  | bytes

/-- The exceptions the body phase can raise (caught by the handler of
lines 78-80; their message texts are produced by the Python runtime). -/
inductive BodyErr where
  | jsonDecode
  | attrError
  deriving DecidableEq

/-- Lines 42-58 of `fetch` plus the `model` extraction of line 49:
classify the body by declared content type and extract the `model` field.
`jsonParse` is the result of `await req.json()` when it is attempted
(`none` models a body that fails to parse). -/
def read_body_and_model (canRead : Bool) (contentType : String)
    (jsonParse : Option Json) (textBody : String) :
    Except BodyErr (Payload × Json) :=
  if canRead = false then Except.ok (Payload.noBody, Json.str "*")
  else
    let ct := pyLower contentType
    if pyStartsWith ct "application/json" then
      match jsonParse with
      | none => Except.error BodyErr.jsonDecode
      | some (Json.obj fs) =>
        Except.ok (Payload.json (Json.obj fs), (mget fs "model").getD (Json.str "*"))
      | some _ => Except.error BodyErr.attrError
    else if pyStartsWith ct "text/" then Except.ok (Payload.text textBody, Json.str "*")
    else if pyStartsWith ct "application/x-www-form-urlencoded" then
      Except.ok (Payload.form, Json.str "*")
    else if pyStartsWith ct "multipart/" || pyStartsWith ct "application/octet-stream" then
      Except.ok (Payload.bytes, Json.str "*")
    else Except.ok (Payload.bytes, Json.str "*")

/-! ### Response relay (`send_request` lines 197-202, `handle_response`
lines 204-218, `stream_response` lines 220-231) -/

/-- The upstream reply as observed by `send_request`. -/
structure UpstreamResp where
  status : Nat
  contentType : String
  body : String
  deriving DecidableEq

/-- A constructed `web.Response`. -/
structure Response where
  status : Nat
  body : String
  contentType : String
  cors : Bool
  deriving DecidableEq

/-- What the `fetch` coroutine hands back to the web framework. -/
inductive Outcome where
  /-- an explicitly constructed `web.Response` -/
  | response (r : Response)
  /-- a `web.StreamResponse` relaying the upstream body chunk by chunk -/
  | streamed (contentType : String) (body : String)
  /-- the raw aiohttp `ClientResponse` object returned verbatim (line 201);
  not a server-side response object -/
  | rawUpstream (status : Nat) (body : String)
  deriving DecidableEq

/-- Whether the outcome is a server-side response object
(`web.Response` / `web.StreamResponse`). -/
def Outcome.isWebResponse : Outcome → Bool
  | Outcome.response _ => true
  | Outcome.streamed _ _ => true
  | Outcome.rawUpstream _ _ => false

/-- The test of line 205, negated: stream exactly when the forwarded payload
is a JSON object whose `stream` member is truthy. -/
def streamFlagTruthy : Payload → Bool
  | Payload.json (Json.obj fs) => jtruthy ((mget fs "stream").getD Json.null)
  | _ => false

/-- `handle_response` (lines 204-218): buffered `web.Response` carrying the
upstream status, body and content type plus CORS headers, or the
event-stream relay of `stream_response` (lines 220-231) copying the
upstream body through verbatim. -/
def handle_response (data : Payload) (resp : UpstreamResp) : Outcome :=
  if streamFlagTruthy data then
    Outcome.streamed "text/event-stream; charset=UTF-8" resp.body
  else
    Outcome.response ⟨resp.status, resp.body, resp.contentType, true⟩

/-- Lines 197-202 of `send_request`: a non-200 upstream status short-circuits
to returning the raw client response object (after its body is read for the
log); a 200 goes through `handle_response`. -/
def send_request_outcome (payload : Payload) (up : UpstreamResp) : Outcome :=
  if up.status ≠ 200 then Outcome.rawUpstream up.status up.body
  else handle_response payload up

/-- `fetch` from the routing step on (lines 63-80), with the body phase
already done: a routing failure is caught by the handler of lines 78-80 and
turned into a `web.Response` with status 429 whose text is the exception
message (`web.Response(text=str(e), status=429)`, default content type
text/plain); otherwise the request is sent and the outcome is the relay's. -/
def fetch_after_body (is_chat : Bool) (token : Option String)
    (model path : String) (appCfg : AppConfig) (payload : Payload)
    (up : UpstreamResp) : Outcome :=
  match routeUrl is_chat model path (configFor appCfg token) with
  | Except.error e => Outcome.response ⟨429, e, "text/plain", false⟩
  | Except.ok _ => send_request_outcome payload up

/-! ### Credential selection and headers (`prepare_headers`, lines 146-176) -/

/-- The global `key_indices` map (line 18). -/
def KeyState : Type := List (String × Nat)

/-- `key_indices.get(key, 0)` (line 160). -/
def stGet (st : KeyState) (key : String) : Nat :=
  (mget st key).getD 0

/-- Lines 155-166 of `prepare_headers`: if the configured key contains a
comma it is split, the entry at the remembered index is selected (and
stripped of whitespace) and the index advances by one modulo the number of
entries; otherwise the key is used as is and the state is untouched. -/
def select_key (key : String) (st : KeyState) : String × KeyState :=
  if key.data.contains ',' then
    let keys := pySplitComma key
    let i := stGet st key
    (pyStrip (keys.getD i ""), mset st key ((i + 1) % keys.length))
  else (key, st)

/-- Lines 168-172: the ChatAnywhere adaptation (strip a trailing `-ca` for
non-chat requests only) and the `Bearer` prefixing. -/
def buildAuth (is_chat : Bool) (selected : String) : String :=
  if !is_chat && pyEndsWith selected "-ca" then
    "Bearer " ++ pyDropRightChars selected 3
  else
    "Bearer " ++ selected

/-- Inbound headers: `dict(req.headers)` (values are always strings). -/
def Headers : Type := List (String × String)

/-- Outbound headers: a value of `none` models Python `None`
(the assignment of line 174 when no credential and no inbound header). -/
def HeadersOut : Type := List (String × Option String)

/-- `req.headers.get('authorization')` — aiohttp's `CIMultiDict` lookup is
case-insensitive. -/
def ciGet (hs : Headers) (k : String) : Option String :=
  (hs.find? (fun p => pyLower p.1 == pyLower k)).map (fun p => p.2)

/-- Lines 146-149: `dict(req.headers)` with `Host` and `Content-Length`
popped. -/
def strippedHeaders (reqHeaders : Headers) : HeadersOut :=
  mremove (mremove (reqHeaders.map (fun p => (p.1, some p.2))) "Host")
    "Content-Length"

/-- `prepare_headers` (lines 146-176): copy the inbound headers, pop `Host`
and `Content-Length`, resolve the `key` field, select a credential (possibly
advancing the round-robin state) and overwrite `Authorization`. -/
def prepare_headers (reqHeaders : Headers) (model : String)
    (config : TenantConfig) (is_chat : Bool) (st : KeyState) :
    HeadersOut × KeyState :=
  let h := strippedHeaders reqHeaders
  match resolveFieldIn config model (fun rc => rc.key) with
  | none => (mset h "Authorization" (ciGet reqHeaders "authorization"), st)
  | some k =>
    if k == "" then (mset h "Authorization" (ciGet reqHeaders "authorization"), st)
    else
      let sel := select_key k st
      (mset h "Authorization" (some (buildAuth is_chat sel.1)), sel.2)

/-! ### Helper lemmas -/

theorem isPrefixOf_append (l₁ l₂ : List Char) : l₁.isPrefixOf (l₁ ++ l₂) = true := by
  induction l₁ with
  | nil => simp [List.isPrefixOf]
  | cons c t ih => simp [List.isPrefixOf, ih]

theorem isSuffixOf_append (l₁ l₂ : List Char) : l₁.isSuffixOf (l₂ ++ l₁) = true := by
  simp [List.isSuffixOf, List.reverse_append, isPrefixOf_append]

theorem mget_cons {α : Type} (p : String × α) (t : List (String × α)) (k : String) :
    mget (p :: t) k = if p.1 = k then some p.2 else mget t k := by
  by_cases h : p.1 = k <;> simp [mget, List.find?_cons, h]

theorem mremove_cons {α : Type} (p : String × α) (t : List (String × α)) (k : String) :
    mremove (p :: t) k = if p.1 = k then mremove t k else p :: mremove t k := by
  by_cases h : p.1 = k <;> simp [mremove, List.filter_cons, h]

theorem mget_append {α : Type} (m₁ m₂ : List (String × α)) (k : String) :
    mget (m₁ ++ m₂) k = (mget m₁ k).orElse (fun _ => mget m₂ k) := by
  induction m₁ with
  | nil => simp [mget]
  | cons p t ih =>
    by_cases h : p.1 = k <;> simp [mget_cons, h, ih]

theorem mget_mremove_self {α : Type} (m : List (String × α)) (k : String) :
    mget (mremove m k) k = none := by
  induction m with
  | nil => rfl
  | cons p t ih =>
    by_cases h : p.1 = k <;> simp [mremove_cons, h, mget_cons, ih]

theorem mget_mremove_ne {α : Type} (m : List (String × α)) (k k' : String) (h : k' ≠ k) :
    mget (mremove m k) k' = mget m k' := by
  induction m with
  | nil => rfl
  | cons p t ih =>
    rw [mremove_cons]
    by_cases hp : p.1 = k
    · rw [if_pos hp, ih, mget_cons, if_neg (by rw [hp]; exact Ne.symm h)]
    · rw [if_neg hp, mget_cons, mget_cons, ih]

theorem mget_mset_self {α : Type} (m : List (String × α)) (k : String) (v : α) :
    mget (mset m k v) k = some v := by
  simp [mset, mget_append, mget_mremove_self, mget_cons]

theorem mget_mset_ne {α : Type} (m : List (String × α)) (k k' : String) (v : α)
    (h : k' ≠ k) : mget (mset m k v) k' = mget m k' := by
  show mget (mremove m k ++ [(k, v)]) k' = mget m k'
  rw [mget_append, mget_mremove_ne m k k' h]
  cases hm : mget m k' with
  | none => simp [mget_cons, Ne.symm h, mget]
  | some v' => simp

theorem mget_map_some {α : Type} (m : List (String × α)) (k : String) :
    mget (m.map (fun p => (p.1, some p.2))) k = (mget m k).map some := by
  induction m with
  | nil => rfl
  | cons p t ih =>
    by_cases h : p.1 = k <;> simp [mget_cons, h, ih]

theorem splitChars_ne_nil (sep : Char) (l : List Char) : splitChars sep l ≠ [] := by
  induction l with
  | nil => simp [splitChars]
  | cons c cs ih =>
    by_cases h : c = sep
    · simp [splitChars, h]
    · simp only [splitChars, if_neg h]
      cases hs : splitChars sep cs with
      | nil => simp
      | cons a t => simp

theorem pySplitComma_length_pos (s : String) : 0 < (pySplitComma s).length := by
  have h := splitChars_ne_nil ',' s.data
  simpa [pySplitComma, List.length_pos] using h

/-! ### Iterated credential selection -/

/-- `m` successive selections of the same credential string against the
global `key_indices` state, starting from the initial (empty) state. -/
def selectIter (key : String) (st : KeyState) : Nat → KeyState
  | 0 => st
  | m + 1 => (select_key key (selectIter key st m)).2

theorem stGet_selectIter (key : String) (h : key.data.contains ',' = true) (m : Nat) :
    stGet (selectIter key [] m) key = m % (pySplitComma key).length := by
  induction m with
  | zero => simp [selectIter, stGet, mget]
  | succ m ih =>
    show stGet (select_key key (selectIter key [] m)).2 key = _
    rw [select_key, if_pos h]
    show stGet (mset (selectIter key [] m) key
      ((stGet (selectIter key [] m) key + 1) % (pySplitComma key).length)) key = _
    rw [stGet, mget_mset_self, Option.getD_some, ih, Nat.mod_add_mod]

/-- C2: for a credential field string containing commas with `n` entries,
successive selections starting from the initial state follow round-robin
order from index 0: after `m` selections the stored index is `m % n`
(hence always in `0..n-1`), the `m`-th selection returns the entry at that
index with surrounding whitespace trimmed, and selections of a different
credential string leave this string's index untouched. -/
theorem C2_round_robin (key : String) (h : key.data.contains ',' = true) (m : Nat) :
    stGet (selectIter key [] m) key = m % (pySplitComma key).length ∧
    m % (pySplitComma key).length < (pySplitComma key).length ∧
    (select_key key (selectIter key [] m)).1 =
      pyStrip ((pySplitComma key).getD (m % (pySplitComma key).length) "") ∧
    (∀ key₂ st₂, key₂ ≠ key → stGet (select_key key₂ st₂).2 key = stGet st₂ key) := by
  refine ⟨stGet_selectIter key h m, Nat.mod_lt _ (pySplitComma_length_pos key), ?_, ?_⟩
  · rw [select_key, if_pos h]
    show pyStrip ((pySplitComma key).getD (stGet (selectIter key [] m) key) "") = _
    rw [stGet_selectIter key h m]
  · intro key₂ st₂ hne
    rw [select_key]
    by_cases hc : key₂.data.contains ',' = true
    · rw [if_pos hc]
      show (mget (mset st₂ key₂ ((stGet st₂ key₂ + 1) % (pySplitComma key₂).length)) key).getD 0 =
        (mget st₂ key).getD 0
      rw [mget_mset_ne st₂ key₂ key _ (Ne.symm hne)]
    · rw [if_neg hc]

/-- Witness for C2: three selections of `"k1,k2"` land on index `3 % 2 = 1`
and return `"k2"`. -/
theorem C2_round_robin_witness :
    "k1,k2".data.contains ',' = true ∧
    stGet (selectIter "k1,k2" [] 3) "k1,k2" = 1 ∧
    (select_key "k1,k2" (selectIter "k1,k2" [] 3)).1 = "k2" := by
  have h := C2_round_robin "k1,k2" rfl 3
  refine ⟨rfl, ?_, ?_⟩
  · rw [h.1]; rfl
  · rw [h.2.2.1]; rfl

/-! ### C4: the `-ca` suffix adaptation -/

theorem pyEndsWith_append_self (p t : String) : pyEndsWith (p ++ t) t = true := by
  rw [pyEndsWith, String.data_append]
  exact isSuffixOf_append t.data p.data

theorem pyDropRightChars_append3 (p : String) : pyDropRightChars (p ++ "-ca") 3 = p := by
  have hdata : (p ++ "-ca").data = p.data ++ ['-', 'c', 'a'] := by
    rw [String.data_append]
  rw [pyDropRightChars, hdata]
  have hlen : (p.data ++ ['-', 'c', 'a']).length - 3 = p.data.length := by
    simp [List.length_append]
  rw [hlen, List.take_left]

/-- C4: a selected credential ending in the literal suffix `-ca` keeps the
suffix on chat requests and has exactly that suffix removed on non-chat
requests before the `Bearer` header is built. -/
theorem C4_ca_suffix (p : String) :
    buildAuth true (p ++ "-ca") = "Bearer " ++ (p ++ "-ca") ∧
    buildAuth false (p ++ "-ca") = "Bearer " ++ p := by
  constructor
  · rw [buildAuth]; simp
  · rw [buildAuth, pyEndsWith_append_self]
    simp [pyDropRightChars_append3]

/-! ### C7 / C10: the passthrough URL of `prepare_other_url` -/

/-- C10: a redirect entry mapping the inbound path to the empty string is
ignored; the upstream URL is the domain plus the original path, exactly as
when no redirect entry exists for that path. -/
theorem C10_falsy_redirect (config : TenantConfig) (model path d : String)
    (r : List (String × String))
    (hd : resolveFieldIn config model (fun rc => rc.domain) = some d)
    (hr : pyOrDict ((tget config model).redirect) ((tget config "*").redirect) = some r)
    (hv : mget r path = some "") :
    prepare_other_url model path config = Except.ok (d ++ path) := by
  rw [prepare_other_url, hd, hr]
  simp [hv]

/-- Witness for C10. -/
theorem C10_falsy_redirect_witness :
    prepare_other_url "m" "/p" [("m", {domain := some "D", redirect := some [("/p", "")]})] =
      Except.ok "D/p" := by
  have h := C10_falsy_redirect
    [("m", {domain := some "D", redirect := some [("/p", "")]})] "m" "/p" "D"
    [("/p", "")] rfl rfl rfl
  rw [h]; rfl

/-- C7 as amended: with a resolvable domain, the upstream URL is
`domain ++ redirect[path]` when the resolved redirect mapping sends the
exact inbound path to a non-empty replacement, and `domain ++ path`
(the inbound path string appended verbatim) when no redirect mapping
resolves or it has no entry for the path. -/
theorem C7_redirect_url (config : TenantConfig) (model path d : String)
    (hd : resolveFieldIn config model (fun rc => rc.domain) = some d) :
    (∀ r v, pyOrDict ((tget config model).redirect) ((tget config "*").redirect) = some r →
        mget r path = some v → v ≠ "" →
        prepare_other_url model path config = Except.ok (d ++ v)) ∧
    (pyOrDict ((tget config model).redirect) ((tget config "*").redirect) = none →
        prepare_other_url model path config = Except.ok (d ++ path)) ∧
    (∀ r, pyOrDict ((tget config model).redirect) ((tget config "*").redirect) = some r →
        mget r path = none →
        prepare_other_url model path config = Except.ok (d ++ path)) := by
  refine ⟨?_, ?_, ?_⟩
  · intro r v hr hv hne
    rw [prepare_other_url, hd, hr]
    simp [hv, hne]
  · intro hr
    rw [prepare_other_url, hd, hr]
  · intro r hr hv
    rw [prepare_other_url, hd, hr]
    simp [hv]

/-- Counterexample to C7 as stated: the redirect mapping contains the exact
inbound path `/p` (mapped to the empty string), yet the URL is not
`domain ++ redirect[path] = "D"` but `domain ++ path = "D/p"`. -/
theorem C7_counterexample :
    mget [("/p", "")] "/p" = some "" ∧
    prepare_other_url "m" "/p"
      [("m", {domain := some "D", redirect := some [("/p", "")]})] = Except.ok "D/p" ∧
    ("D/p" : String) ≠ "D" ++ "" := by
  refine ⟨rfl, rfl, by decide⟩

/-- Witness for C7: a non-empty redirect replacement is applied. -/
theorem C7_redirect_url_witness :
    prepare_other_url "m" "/p"
      [("m", {domain := some "D", redirect := some [("/p", "/q")]})] = Except.ok "D/q" := by
  have h := (C7_redirect_url
    [("m", {domain := some "D", redirect := some [("/p", "/q")]})] "m" "/p" "D" rfl).1
    [("/p", "/q")] "/q" rfl rfl (by decide)
  rw [h]; rfl

/-! ### C3: relay-mode selection -/

theorem streamFlagTruthy_iff (data : Payload) :
    streamFlagTruthy data = true ↔
      ∃ fs, data = Payload.json (Json.obj fs) ∧
        jtruthy ((mget fs "stream").getD Json.null) = true := by
  cases data with
  | json j => cases j <;> simp [streamFlagTruthy]
  | noBody => simp [streamFlagTruthy]
  | text s => simp [streamFlagTruthy]
  | form => simp [streamFlagTruthy]
  | bytes => simp [streamFlagTruthy]

/-- C3: the relay mode is chosen by the inbound payload alone.  The relay
streams (as `text/event-stream`, copying the upstream body through) exactly
when the parsed payload is a JSON object whose `stream` member is truthy;
in every other case (no payload, payload not a JSON object, `stream`
absent or falsy) it emits one buffered response carrying the upstream
status, body and content type plus CORS headers. -/
theorem C3_relay_mode (data : Payload) (resp : UpstreamResp) :
    (handle_response data resp =
        Outcome.streamed "text/event-stream; charset=UTF-8" resp.body ↔
      ∃ fs, data = Payload.json (Json.obj fs) ∧
        jtruthy ((mget fs "stream").getD Json.null) = true) ∧
    ((¬ ∃ fs, data = Payload.json (Json.obj fs) ∧
        jtruthy ((mget fs "stream").getD Json.null) = true) →
      handle_response data resp =
        Outcome.response ⟨resp.status, resp.body, resp.contentType, true⟩) := by
  constructor
  · rw [← streamFlagTruthy_iff]
    cases hf : streamFlagTruthy data <;> simp [handle_response, hf]
  · intro hn
    have hf : streamFlagTruthy data = false := by
      cases hf : streamFlagTruthy data
      · rfl
      · exact absurd ((streamFlagTruthy_iff data).mp hf) hn
    simp [handle_response, hf]

/-- Witness for C3: `{"stream": true}` streams; a text payload is buffered. -/
theorem C3_relay_mode_witness :
    handle_response (Payload.json (Json.obj [("stream", Json.bool true)]))
      ⟨200, "application/json", "B"⟩ =
      Outcome.streamed "text/event-stream; charset=UTF-8" "B" ∧
    handle_response (Payload.text "x") ⟨200, "application/json", "B"⟩ =
      Outcome.response ⟨200, "B", "application/json", true⟩ := by
  constructor
  · exact (C3_relay_mode _ _).1.mpr ⟨[("stream", Json.bool true)], rfl, rfl⟩
  · refine (C3_relay_mode _ _).2 ?_
    rintro ⟨fs, hfs, -⟩
    exact Payload.noConfusion hfs

/-! ### C6: non-200 upstream handling -/

/-- A routable configuration for the C6 evaluation. -/
def appCfgC6 : AppConfig := [("*", [("*", {domain := some "https://up"})])]

/-- Evaluation of the code at C6's failing input: on a non-200 upstream
status, `send_request` hands back the raw aiohttp client-response object
(carrying the upstream status and body) instead of constructing a server
response; no `web.Response` or `web.StreamResponse` is built, so the
upstream status and body are not relayed to the caller as such. -/
theorem C6_raw_upstream_eval :
    fetch_after_body false none "m" "/p" appCfgC6 Payload.noBody
      ⟨404, "text/plain", "upstream error"⟩ =
      Outcome.rawUpstream 404 "upstream error" ∧
    (fetch_after_body false none "m" "/p" appCfgC6 Payload.noBody
      ⟨404, "text/plain", "upstream error"⟩).isWebResponse = false := by
  exact ⟨rfl, rfl⟩

/-! ### C5: configuration errors surface as 429 responses -/

/-- C5: when chat-mode resolution finds neither a truthy `chat-url` nor a
`domain` (or other-mode resolution finds no `domain`), `fetch` catches the
raised `ValueError` and answers the caller with a single HTTP 429
`web.Response` whose body is the error message text; no retry happens and
no upstream request outcome is involved. -/
theorem C5_config_error_429 (appCfg : AppConfig) (token : Option String)
    (model path : String) (payload : Payload) (up : UpstreamResp) :
    (pyTruthyStr (resolveFieldIn (configFor appCfg token) model
        (fun rc => rc.chat_url)) = false →
      resolveFieldIn (configFor appCfg token) model (fun rc => rc.domain) = none →
      fetch_after_body true token model path appCfg payload up =
        Outcome.response ⟨429, chatNoRouteMsg model, "text/plain", false⟩) ∧
    (resolveFieldIn (configFor appCfg token) model (fun rc => rc.domain) = none →
      fetch_after_body false token model path appCfg payload up =
        Outcome.response ⟨429, chatNoRouteMsg model, "text/plain", false⟩) := by
  constructor
  · intro hcu hd
    have hc : prepare_chat_url model (configFor appCfg token) =
        Except.error (chatNoRouteMsg model) := by
      rw [prepare_chat_url]
      simp [hcu, hd]
    simp [fetch_after_body, routeUrl, hc]
  · intro hd
    have ho : prepare_other_url model path (configFor appCfg token) =
        Except.error (chatNoRouteMsg model) := by
      rw [prepare_other_url, hd]
    simp [fetch_after_body, routeUrl, ho]

/-- Witness for C5: the empty configuration routes nothing; the caller gets
the 429 carrying the configuration-error text. -/
theorem C5_config_error_429_witness :
    fetch_after_body false none "m" "/p" [] Payload.noBody ⟨200, "ct", "B"⟩ =
      Outcome.response ⟨429, chatNoRouteMsg "m", "text/plain", false⟩ :=
  (C5_config_error_429 [] none "m" "/p" Payload.noBody ⟨200, "ct", "B"⟩).2 rfl

/-! ### C8: the body adapter and model extraction -/

/-- Whether the body phase produced a payload (rather than raising). -/
def bodyPhaseOk : Except BodyErr (Payload × Json) → Bool
  | Except.ok _ => true
  | Except.error _ => false

/-- C8 as amended: under an `application/json*` content type a body that
parses to a JSON object yields that value as the payload together with its
`model` member (defaulting to the wildcard `"*"` when the member is
absent); a body that fails to parse raises (caller gets the 429 error
response) instead of defaulting the model; under a non-JSON content type
the model is the wildcard `"*"`. -/
theorem C8_json_body_model (ct tb : String)
    (h : pyStartsWith (pyLower ct) "application/json" = true) :
    (∀ fs mv, mget fs "model" = some mv →
      read_body_and_model true ct (some (Json.obj fs)) tb =
        Except.ok (Payload.json (Json.obj fs), mv)) ∧
    (∀ fs, mget fs "model" = none →
      read_body_and_model true ct (some (Json.obj fs)) tb =
        Except.ok (Payload.json (Json.obj fs), Json.str "*")) ∧
    read_body_and_model true ct none tb = Except.error BodyErr.jsonDecode ∧
    (∀ ct₂ jp, pyStartsWith (pyLower ct₂) "application/json" = false →
      ∃ p, read_body_and_model true ct₂ jp tb = Except.ok (p, Json.str "*")) := by
  refine ⟨?_, ?_, ?_, ?_⟩
  · intro fs mv hm
    simp [read_body_and_model, h, hm]
  · intro fs hm
    simp [read_body_and_model, h, hm]
  · simp [read_body_and_model, h]
  · intro ct₂ jp h₂
    by_cases h3 : pyStartsWith (pyLower ct₂) "text/" = true
    · exact ⟨Payload.text tb, by simp [read_body_and_model, h₂, h3]⟩
    · by_cases h4 : pyStartsWith (pyLower ct₂) "application/x-www-form-urlencoded" = true
      · exact ⟨Payload.form, by simp [read_body_and_model, h₂, h3, h4]⟩
      · by_cases h5 : (pyStartsWith (pyLower ct₂) "multipart/" ||
            pyStartsWith (pyLower ct₂) "application/octet-stream") = true
        · exact ⟨Payload.bytes, by simp [read_body_and_model, h₂, h3, h4, h5]⟩
        · exact ⟨Payload.bytes, by simp [read_body_and_model, h₂, h3, h4, h5]⟩

/-- Counterexample to C8 as stated: with content type `application/json` and
a body that does not parse as JSON, the adapter raises `JSONDecodeError`
instead of producing a payload whose model defaults to `"*"`. -/
theorem C8_counterexample :
    read_body_and_model true "application/json" none "not json" =
      Except.error BodyErr.jsonDecode ∧
    bodyPhaseOk (read_body_and_model true "application/json" none "not json") =
      false := ⟨rfl, rfl⟩

/-- Witness for C8: a parsed JSON object's `model` member is extracted. -/
theorem C8_json_body_model_witness :
    read_body_and_model true "application/json"
      (some (Json.obj [("model", Json.str "gpt-4")])) "" =
      Except.ok (Payload.json (Json.obj [("model", Json.str "gpt-4")]),
        Json.str "gpt-4") :=
  (C8_json_body_model "application/json" "" rfl).1
    [("model", Json.str "gpt-4")] (Json.str "gpt-4") rfl

/-! ### C9: header rewriting -/

theorem strippedHeaders_auth {v : Option String} (m0 : Headers) :
    (∀ k, k ≠ "Host" → k ≠ "Content-Length" → k ≠ "Authorization" →
      mget (mset (strippedHeaders m0) "Authorization" v) k =
        (mget m0 k).map some) ∧
    mget (mset (strippedHeaders m0) "Authorization" v) "Host" = none ∧
    mget (mset (strippedHeaders m0) "Authorization" v) "Content-Length" = none ∧
    mget (mset (strippedHeaders m0) "Authorization" v) "Authorization" = some v := by
  refine ⟨?_, ?_, ?_, ?_⟩
  · intro k h1 h2 h3
    rw [mget_mset_ne _ _ _ _ h3, strippedHeaders, mget_mremove_ne _ _ _ h2,
      mget_mremove_ne _ _ _ h1, mget_map_some]
  · rw [mget_mset_ne _ _ _ _ (by decide), strippedHeaders,
      mget_mremove_ne _ _ _ (by decide), mget_mremove_self]
  · rw [mget_mset_ne _ _ _ _ (by decide), strippedHeaders, mget_mremove_self]
  · exact mget_mset_self _ _ _

/-- C9: the forwarded header set is the inbound one with exactly three
changes: `Host` removed, `Content-Length` removed, and `Authorization`
overwritten — with the selected credential's `Bearer` value when a key is
configured for the tenant/model, else with the inbound `Authorization`
value; every other header is unchanged. -/
theorem C9_headers (reqHeaders : Headers) (model : String) (config : TenantConfig)
    (is_chat : Bool) (st : KeyState) :
    (∀ k, k ≠ "Host" → k ≠ "Content-Length" → k ≠ "Authorization" →
      mget (prepare_headers reqHeaders model config is_chat st).1 k =
        (mget reqHeaders k).map some) ∧
    mget (prepare_headers reqHeaders model config is_chat st).1 "Host" = none ∧
    mget (prepare_headers reqHeaders model config is_chat st).1 "Content-Length" =
      none ∧
    (pyTruthyStr (resolveFieldIn config model (fun rc => rc.key)) = false →
      mget (prepare_headers reqHeaders model config is_chat st).1 "Authorization" =
        some (ciGet reqHeaders "authorization")) ∧
    (∀ k, resolveFieldIn config model (fun rc => rc.key) = some k → k ≠ "" →
      mget (prepare_headers reqHeaders model config is_chat st).1 "Authorization" =
        some (some (buildAuth is_chat (select_key k st).1))) := by
  cases hk : resolveFieldIn config model (fun rc => rc.key) with
  | none =>
    have hout : (prepare_headers reqHeaders model config is_chat st).1 =
        mset (strippedHeaders reqHeaders) "Authorization"
          (ciGet reqHeaders "authorization") := by
      rw [prepare_headers, hk]
    rw [hout]
    refine ⟨(strippedHeaders_auth reqHeaders).1, (strippedHeaders_auth reqHeaders).2.1,
      (strippedHeaders_auth reqHeaders).2.2.1,
      fun _ => (strippedHeaders_auth reqHeaders).2.2.2, ?_⟩
    intro k hke
    exact absurd hke (by simp)
  | some k =>
    by_cases hke : k = ""
    · subst hke
      have hout : (prepare_headers reqHeaders model config is_chat st).1 =
          mset (strippedHeaders reqHeaders) "Authorization"
            (ciGet reqHeaders "authorization") := by
        rw [prepare_headers, hk]
        simp
      rw [hout]
      refine ⟨(strippedHeaders_auth reqHeaders).1, (strippedHeaders_auth reqHeaders).2.1,
        (strippedHeaders_auth reqHeaders).2.2.1,
        fun _ => (strippedHeaders_auth reqHeaders).2.2.2, ?_⟩
      intro k' hk' hne
      exact absurd (Option.some.inj hk').symm hne
    · have hout : (prepare_headers reqHeaders model config is_chat st).1 =
          mset (strippedHeaders reqHeaders) "Authorization"
            (some (buildAuth is_chat (select_key k st).1)) := by
        rw [prepare_headers, hk]
        simp [hke]
      rw [hout]
      refine ⟨(strippedHeaders_auth reqHeaders).1, (strippedHeaders_auth reqHeaders).2.1,
        (strippedHeaders_auth reqHeaders).2.2.1, ?_, ?_⟩
      · intro hfalse
        exfalso
        rw [pyTruthyStr] at hfalse
        simp [hke] at hfalse
      · intro k' hk' _
        have : k' = k := (Option.some.inj hk').symm
        subst this
        exact (strippedHeaders_auth reqHeaders).2.2.2

/-- Witness for C9: other headers survive, `Host` is gone, and
`Authorization` carries the first round-robin credential. -/
theorem C9_headers_witness :
    mget (prepare_headers [("Host", "h"), ("Content-Length", "3"),
        ("X-Custom", "z"), ("Authorization", "Bearer tok")] "m"
        [("*", {key := some "k1,k2"})] true []).1 "X-Custom" = some (some "z") ∧
    mget (prepare_headers [("Host", "h"), ("Content-Length", "3"),
        ("X-Custom", "z"), ("Authorization", "Bearer tok")] "m"
        [("*", {key := some "k1,k2"})] true []).1 "Host" = none ∧
    mget (prepare_headers [("Host", "h"), ("Content-Length", "3"),
        ("X-Custom", "z"), ("Authorization", "Bearer tok")] "m"
        [("*", {key := some "k1,k2"})] true []).1 "Authorization" =
      some (some "Bearer k1") := by
  have h := C9_headers [("Host", "h"), ("Content-Length", "3"), ("X-Custom", "z"),
    ("Authorization", "Bearer tok")] "m" [("*", {key := some "k1,k2"})] true []
  refine ⟨?_, h.2.1, ?_⟩
  · rw [h.1 "X-Custom" (by decide) (by decide) (by decide)]
    rfl
  · rw [h.2.2.2.2 "k1,k2" rfl (by decide)]
    rfl

/-! ### C1: tenant-first configuration resolution -/

/-- C1 as amended: line 60 selects the tenant layer first — the token's own
tenant config when the token is a key of the top-level config, else the
wildcard tenant's — and each field is then resolved inside that single
tenant config as model entry first, model wildcard second (Python `or`,
so a truthy model-specific value wins).  When the token is present, the
resolved value depends only on that tenant's config; the wildcard tenant
is never consulted. -/
theorem C1_resolution_tenant_first (appCfg : AppConfig) (t model : String)
    (f : RouteConfig → Option String) :
    (∀ tcfg, mget appCfg t = some tcfg →
      codeResolveField appCfg (some t) model f =
        pyOrStr (f (tget tcfg model)) (f (tget tcfg "*"))) ∧
    (mget appCfg t = none →
      codeResolveField appCfg (some t) model f =
        pyOrStr (f (tget ((mget appCfg "*").getD []) model))
          (f (tget ((mget appCfg "*").getD []) "*"))) := by
  constructor
  · intro tcfg h
    rw [codeResolveField, configFor, h, resolveFieldIn]
  · intro h
    rw [codeResolveField, configFor, h, resolveFieldIn]

/-- The configuration refuting C1 as stated: tenant `"t"` exists but is
empty, while the wildcard tenant has a `domain` for model `"m"`. -/
def cexCfg : AppConfig :=
  [("t", ([] : TenantConfig)),
   ("*", ([("m", {domain := some "D"})] : TenantConfig))]

/-- Counterexample to C1 as stated: under `cexCfg` with token `"t"` and
model `"m"`, the spec's four-step fallback chain resolves `domain` to the
wildcard tenant's `"D"`, but the code resolves it to nothing (the token
exists, so the wildcard tenant is never consulted) and route resolution
fails with the configuration error. -/
theorem C1_counterexample :
    codeResolveField cexCfg (some "t") "m" (fun rc => rc.domain) = none ∧
    spec_fallback_resolve cexCfg (some "t") "m" (fun rc => rc.domain) = some "D" ∧
    prepare_other_url "m" "/p" (configFor cexCfg (some "t")) =
      Except.error (chatNoRouteMsg "m") :=
  ⟨rfl, rfl, rfl⟩

/-- Witness for C1: resolution inside a present tenant's config. -/
theorem C1_resolution_tenant_first_witness :
    codeResolveField [("t", ([("m", {domain := some "D"})] : TenantConfig))]
      (some "t") "m" (fun rc => rc.domain) = some "D" := by
  rw [(C1_resolution_tenant_first [("t", ([("m", {domain := some "D"})] : TenantConfig))]
    "t" "m" (fun rc => rc.domain)).1 ([("m", {domain := some "D"})] : TenantConfig) rfl]
  rfl

end ForwardOai
